import Mathlib

/-!
# Verification of the RAG service core (Ayfri/RAG)

Shallow embedding of the repository's core logic:
* `src/api/src/utils.py` / `src/api/src/rag.py` — glob admission
  (`filter_files_by_globs`, `filter_documents_by_include_globs`) on top of
  Python's `fnmatch.fnmatch`;
* `src/api/src/rag.py` — `RAGService` lifecycle operations (`create_rag`,
  `delete_rag`, `update_rag_config`, `_load_rag_config`) over an explicit
  filesystem state;
* `src/api/services/rag_router.py` — the config-update HTTP handler and the
  streaming endpoint;
* `src/api/src/rag.py` `async_agent_stream` — the streaming event multiplexer.

External collaborators (LlamaIndex readers, the vector index, the LLM engine)
are modeled as function parameters; machine-level details (actual bytes on
disk) are modeled as association lists keyed by instance name.
-/

namespace RAG

/-! ## String helpers (structural, kernel-reducible)

Python string operations used by the source, re-implemented over `List Char`
so that concrete witnesses evaluate by `decide`/`rfl`. -/

/-- `s.startswith(p)` (Python) on the underlying character lists. -/
def strStartsWith (s p : String) : Bool :=
  p.data.isPrefixOf s.data

/-- `s.endswith(p)` (Python) on the underlying character lists. -/
def strEndsWith (s p : String) : Bool :=
  p.data.isSuffixOf s.data

/-- All suffixes of a list, longest first (including the list itself and `[]`). -/
def suffixes : List Char → List (List Char)
  | [] => [[]]
  | c :: t => (c :: t) :: suffixes t

/-- `p in s` (Python substring containment). -/
def strContains (s p : String) : Bool :=
  (suffixes s.data).any (fun suf => p.data.isPrefixOf suf)

/-- Split a character list on a separator character (Python `str.split(sep)`). -/
def splitOnChar (c : Char) : List Char → List (List Char)
  | [] => [[]]
  | d :: rest =>
    let r := splitOnChar c rest
    if d = c then [] :: r
    else
      match r with
      | [] => [[d]]
      | h :: t => (d :: h) :: t

/-- `pathlib.Path(p).name`: the final path component (POSIX, '/'-separated).
Empty components (from duplicate or trailing slashes) are ignored, matching
`Path("a//b/").name = "b"`. -/
def baseName (p : String) : String :=
  match ((splitOnChar '/' p.data).filter (fun part => part ≠ [])).getLast? with
  | some part => ⟨part⟩
  | none => ""

/-! ## `fnmatch.fnmatch` (Python standard library)

`fnmatch.translate` compiles a shell pattern to a regex; on POSIX,
`os.path.normcase` is the identity, so `fnmatch.fnmatch` = `fnmatchcase`.
We compile the pattern to a token list and match structurally:
`*` matches any character sequence (including `/`), `?` any single
character, `[seq]` / `[!seq]` a (negated) character class with ranges; an
unterminated `[` is a literal. The whole string must match. -/

/-- One item of a `[...]` character class: a literal or an inclusive range. -/
inductive ClsItem where
  | lit (c : Char)
  | range (a b : Char)
deriving DecidableEq, Repr

/-- One compiled token of a shell glob pattern. -/
inductive GlobTok where
  | star
  | qmark
  | cls (neg : Bool) (items : List ClsItem)
  | lit (c : Char)
deriving DecidableEq, Repr

/-- Scan the body of a `[...]` class: returns the class contents and the
remainder after the closing `]`, or `none` when unterminated. -/
def breakAtRBracket : List Char → Option (List Char × List Char)
  | [] => none
  | ']' :: t => some ([], t)
  | c :: t =>
    match breakAtRBracket t with
    | none => none
    | some (a, b) => some (c :: a, b)

/-- `fnmatch.translate`'s bracket scan: after `[`, an initial `!` and an
initial `]` are part of the class body; then scan to the closing `]`. -/
def scanCls (cs : List Char) : Option (List Char × List Char) :=
  let (pre1, cs1) :=
    match cs with
    | '!' :: t => ([('!' : Char)], t)
    | _ => ([], cs)
  let (pre2, cs2) :=
    match cs1 with
    | ']' :: t => ([(']' : Char)], t)
    | _ => ([], cs1)
  match breakAtRBracket cs2 with
  | none => none
  | some (mid, rest) => some (pre1 ++ pre2 ++ mid, rest)

/-- Parse class contents into literals and ranges (`-` at the edges is a
literal, as in regex character classes). -/
def parseItems : List Char → List ClsItem
  | a :: '-' :: b :: rest => ClsItem.range a b :: parseItems rest
  | a :: rest => ClsItem.lit a :: parseItems rest
  | [] => []

/-- Fuel-driven pattern compiler (fuel bounds the token count, which never
exceeds the pattern length). -/
def translateAux : Nat → List Char → List GlobTok
  | 0, _ => []
  | _, [] => []
  | fuel + 1, c :: rest =>
    if c = '*' then GlobTok.star :: translateAux fuel rest
    else if c = '?' then GlobTok.qmark :: translateAux fuel rest
    else if c = '[' then
      match scanCls rest with
      | none => GlobTok.lit '[' :: translateAux fuel rest
      | some (stuff, rest') =>
        match stuff with
        | '!' :: body => GlobTok.cls true (parseItems body) :: translateAux fuel rest'
        | body => GlobTok.cls false (parseItems body) :: translateAux fuel rest'
    else GlobTok.lit c :: translateAux fuel rest

/-- Compile a shell glob pattern to tokens. -/
def translate (pat : List Char) : List GlobTok :=
  translateAux (pat.length + 1) pat

/-- Does a character belong to a class item? -/
def clsItemMatch (c : Char) : ClsItem → Bool
  | ClsItem.lit a => c == a
  | ClsItem.range a b => decide (a ≤ c) && decide (c ≤ b)

/-- Match compiled tokens against a character list (anchored at both ends). -/
def matchToks : List GlobTok → List Char → Bool
  | [], s => s.isEmpty
  | GlobTok.star :: ts, s => (suffixes s).any (matchToks ts)
  | GlobTok.qmark :: ts, s =>
    match s with
    | [] => false
    | _ :: t => matchToks ts t
  | GlobTok.cls neg items :: ts, s =>
    match s with
    | [] => false
    | d :: t => (neg != items.any (clsItemMatch d)) && matchToks ts t
  | GlobTok.lit c :: ts, s =>
    match s with
    | [] => false
    | d :: t => c == d && matchToks ts t

/-- `fnmatch.fnmatch(name, pat)` (POSIX: `normcase` is the identity). -/
def fnmatch (name pat : String) : Bool :=
  matchToks (translate pat.data) name.data

/-! ## Glob admission (`src/api/src/utils.py:46-71`, duplicated as
`RAGService._filter_files_by_globs`, `src/api/src/rag.py:754-790`)

The source loop appends each non-excluded, included file in input order,
which is exactly `List.filter` with the predicate below. -/

/-- `filter_files_by_globs(files, include_globs, exclude_globs)`: a file is
skipped when it matches any exclude pattern; otherwise it is kept iff it
matches at least one include pattern. The pattern is matched against the
candidate string exactly as passed (the source calls
`fnmatch.fnmatch(file, pattern)` on the raw string only). -/
def filter_files_by_globs (files include_globs exclude_globs : List String) : List String :=
  files.filter (fun file =>
    !(exclude_globs.any (fun pat => fnmatch file pat)) &&
      include_globs.any (fun pat => fnmatch file pat))

/-- A document: retrievable text plus string-valued metadata (the fields the
core reads — `file_path`, `source_type`, `url` — are all strings). -/
structure Document where
  text : String
  metadata : List (String × String)
deriving DecidableEq, Repr

/-- `doc.metadata.get(key, '')`. -/
def metaGet (d : Document) (k : String) : String :=
  match d.metadata.find? (fun e => e.1 == k) with
  | some e => e.2
  | none => ""

/-- `filter_documents_by_include_globs(documents, include_globs)`
(`src/api/src/utils.py:23-43`, duplicated as
`RAGService._filter_documents_by_include_globs`, `src/api/src/rag.py:792-824`):
a document with a non-empty `file_path` metadata entry is kept iff some
include pattern matches its bare file name (`Path(file_path).name`) or its
full `file_path`; documents with empty `file_path` are dropped. -/
def filter_documents_by_include_globs (documents : List Document)
    (include_globs : List String) : List Document :=
  documents.filter (fun doc =>
    let file_path := metaGet doc "file_path"
    file_path != "" &&
      include_globs.any (fun pat =>
        fnmatch (baseName file_path) pat || fnmatch file_path pat))

/-! ## Per-instance configuration (`src/api/src/rag_config.py`) -/

/-- One entry of `RAGConfig.file_filters`: the stored JSON dict may omit the
`include` / `exclude` keys, so both are optional here (`filters.get('include',
['**/*'])` / `filters.get('exclude', [])` supply the defaults on lookup).
`incl` stands for the source's `include` key, `excl` for `exclude`. -/
structure FilterRuleOpt where
  incl : Option (List String)
  excl : Option (List String)
deriving DecidableEq, Repr

/-- The resolved filter rule returned by `get_file_filters_for_path`. -/
structure FileFilters where
  include_globs : List String
  exclude_globs : List String
deriving DecidableEq, Repr

/-- `RAGConfig`: chat model id, embedding model id, system prompt, and
per-source file filters (`src/api/src/rag_config.py:6-18`). -/
structure RAGConfig where
  chat_model : String
  embedding_model : String
  system_prompt : String
  file_filters : List (String × FilterRuleOpt)
deriving DecidableEq, Repr

/-- `RAGConfig()` with all constructor defaults. -/
def defaultRAGConfig : RAGConfig :=
  { chat_model := "gpt-4o-mini"
    embedding_model := "text-embedding-3-large"
    system_prompt := "You are a helpful assistant that answers questions based on the provided context. Be concise and accurate."
    file_filters := [] }

/-- `RAGConfig.get_file_filters_for_path(path_name)`
(`src/api/src/rag_config.py:39-57`): exact lookup in `file_filters` with the
per-key defaults, else the default rule `include ["**/*"], exclude []`. -/
def RAGConfig.get_file_filters_for_path (c : RAGConfig) (path_name : String) : FileFilters :=
  match c.file_filters.find? (fun e => e.1 == path_name) with
  | some e =>
    { include_globs := e.2.incl.getD ["**/*"]
      exclude_globs := e.2.excl.getD [] }
  | none => { include_globs := ["**/*"], exclude_globs := [] }

/-! ## Filesystem state of the service

The four persisted locations (`data/files/<name>/`, `data/indices/<name>/`,
`data/configs/<name>.json`, `data/resumes/<name>.md`) are modeled as
association lists keyed by instance name; a key being present models the
directory/file existing. Directories are modeled at the granularity the
lifecycle code observes. -/

/-- A persisted config file: valid JSON parsing to a `RAGConfig`, or a file
whose contents fail to parse (`json.JSONDecodeError` / `KeyError`). -/
inductive StoredConfig where
  | valid (c : RAGConfig)
  | invalid
deriving DecidableEq, Repr

/-- A symlink in the files root: its name, the documents loadable from the
tree it points to, and whether the target is a directory (`create_symlink`
allows both file and directory targets; `Path.is_file()` follows the link,
which decides whether `delete_rag`'s unlink pass removes it). -/
structure SymlinkEntry where
  name : String
  target : List Document
  target_is_dir : Bool
deriving DecidableEq, Repr

/-- Contents of `data/files/<name>/`: top-level plain file names, top-level
subdirectory names (created by `create_folder` / `save_directory`; their
files are part of `baseDocs`, and `get_files` does not list them), symlinks,
and the documents `SimpleDirectoryReader` would load from the base directory
tree (used by the non-JSON branch of `create_rag`). -/
structure FilesDir where
  files : List String
  folders : List String
  symlinks : List SymlinkEntry
  baseDocs : List Document
deriving DecidableEq, Repr

/-- The empty files directory. -/
def emptyFilesDir : FilesDir :=
  { files := [], folders := [], symlinks := [], baseDocs := [] }

/-- Association-list lookup by string key. -/
def getEntry {α : Type} (m : List (String × α)) (k : String) : Option α :=
  (m.find? (fun e => e.1 == k)).map (fun e => e.2)

/-- Association-list insert/overwrite by string key. -/
def setEntry {α : Type} (m : List (String × α)) (k : String) (v : α) : List (String × α) :=
  (k, v) :: m.filter (fun e => e.1 != k)

/-- Association-list removal by string key. -/
def eraseEntry {α : Type} (m : List (String × α)) (k : String) : List (String × α) :=
  m.filter (fun e => e.1 != k)

/-- The on-disk state seen by `RAGService`: one entry per instance under each
of the four storage roots. A persisted index is modeled by the list of
documents it was built from. -/
structure ServiceState where
  filesDirs : List (String × FilesDir)
  indices : List (String × List Document)
  configs : List (String × StoredConfig)
  resumes : List (String × String)
deriving DecidableEq, Repr

/-! ## Config store (`RAGService._load_rag_config`, `src/api/src/rag.py:720-739`;
identical logic in `RAGDocumentManager._load_rag_config`,
`src/api/src/document_manager.py:347-359`) -/

/-- `_load_rag_config(rag_name)`: if the config file exists and parses, return
it unchanged; otherwise (absent, or parse failure reported as a warning)
create the default configuration, persist it, and return it. Returns the
loaded config together with the possibly-updated state. -/
def load_rag_config (st : ServiceState) (rag_name : String) : RAGConfig × ServiceState :=
  match getEntry st.configs rag_name with
  | some (StoredConfig.valid c) => (c, st)
  | _ =>
    (defaultRAGConfig,
     { st with configs := setEntry st.configs rag_name (StoredConfig.valid defaultRAGConfig) })

/-- `RAGService.get_rag_config` (`src/api/src/rag.py:304-311`): delegates to
`_load_rag_config`. -/
def get_rag_config (st : ServiceState) (rag_name : String) : RAGConfig × ServiceState :=
  load_rag_config st rag_name

/-- Errors raised by the lifecycle operations: `FileNotFoundError`, and the
`OSError` (directory not empty) that `Path.rmdir()` raises. -/
inductive Err where
  | notFound
  | osError
deriving DecidableEq, Repr

/-- `RAGService.update_rag_config` (`src/api/src/rag.py:627-640`; identical
logic in `RAGDocumentManager.update_rag_config`,
`src/api/src/document_manager.py:316-323`): raise `FileNotFoundError` when the
index directory is absent, else write the config file. An error leaves the
state untouched. -/
def update_rag_config (st : ServiceState) (rag_name : String) (config : RAGConfig) :
    Option Err × ServiceState :=
  if (getEntry st.indices rag_name).isNone then (some Err.notFound, st)
  else (none, { st with configs := setEntry st.configs rag_name (StoredConfig.valid config) })

/-- `RAGService.delete_rag` (`src/api/src/rag.py:267-301`): raise
`FileNotFoundError` when the index directory is absent (before touching
anything). Otherwise remove the index directory first (persisted index
directories are flat — `persist` writes only files — so its
`rglob`-unlink-then-`rmdir` succeeds), then clear the files root if it
exists: `for child in files_path.rglob('*'): if child.is_file():
child.unlink()` removes every plain file (top-level or nested inside a
subfolder) and every symlink whose target is a file (`is_file()` follows
links), but leaves subfolders and directory symlinks in place, so the
subsequent `files_path.rmdir()` raises `OSError` (directory not empty)
whenever the files root holds a subfolder or a directory symlink; the
config record and summary file are then never reached — a partial removal.
Only when the files root is absent or fully removable are the config file
and the summary file also removed. -/
def delete_rag (st : ServiceState) (rag_name : String) : Option Err × ServiceState :=
  if (getEntry st.indices rag_name).isNone then (some Err.notFound, st)
  else
    let st1 := { st with indices := eraseEntry st.indices rag_name }
    match getEntry st1.filesDirs rag_name with
    | some fd =>
      -- the unlink pass: plain files and file symlinks are gone, subfolders
      -- (now emptied of files) and directory symlinks remain
      let fdResidue : FilesDir :=
        { files := [], folders := fd.folders
          symlinks := fd.symlinks.filter (fun l => l.target_is_dir)
          baseDocs := [] }
      if !fd.folders.isEmpty || fd.symlinks.any (fun l => l.target_is_dir) then
        -- `files_path.rmdir()` raises OSError: config and summary survive
        (some Err.osError,
         { st1 with filesDirs := setEntry st1.filesDirs rag_name fdResidue })
      else
        (none,
         { st1 with
             filesDirs := eraseEntry st1.filesDirs rag_name
             configs := eraseEntry st1.configs rag_name
             resumes := eraseEntry st1.resumes rag_name })
    | none =>
      (none,
       { st1 with
           configs := eraseEntry st1.configs rag_name
           resumes := eraseEntry st1.resumes rag_name })

/-! ## Create / reindex (`RAGService.create_rag`, `src/api/src/rag.py:88-211`)

LlamaIndex collaborators are abstracted as an `Engine`:
`readDir docs exc` models `SimpleDirectoryReader(path, recursive=True,
exclude=exc).load_data()` applied to a directory tree whose loadable
documents are `docs` (an empty `exc` models the kwarg being omitted);
`jsonRead f` models `JSONReader().load_data(input_file=f)`;
`summarize docs` models `index.as_query_engine(...).query(summary_prompt)`
on the index built from `docs`. -/
structure Engine where
  readDir : List Document → List String → List Document
  jsonRead : String → List Document
  summarize : List Document → String

/-- The document set `create_rag` assembles (`src/api/src/rag.py:109-161`):
symlink documents (per-symlink filters, reader-side excludes, then include
filtering) followed by base-directory documents (JSON branch when every
loose file ends in `.json`, else the recursive reader plus include
filtering). The prior persisted index is never consulted. -/
def createRagDocs (eng : Engine) (config : RAGConfig) (fd : FilesDir) : List Document :=
  let symDocs := fd.symlinks.flatMap (fun link =>
    let filters := config.get_file_filters_for_path link.name
    let loaded := eng.readDir link.target filters.exclude_globs
    filter_documents_by_include_globs loaded filters.include_globs)
  let baseDocs :=
    if fd.files.isEmpty then []
    else
      let base_filters := config.get_file_filters_for_path "_base"
      if fd.files.all (fun f => strEndsWith f ".json") then
        (filter_files_by_globs fd.files base_filters.include_globs
          base_filters.exclude_globs).flatMap eng.jsonRead
      else
        filter_documents_by_include_globs
          (eng.readDir fd.baseDocs base_filters.exclude_globs)
          base_filters.include_globs
  symDocs ++ baseDocs

/-- `RAGService.create_rag(rag_name)` (`src/api/src/rag.py:88-211`): ensure
the files root exists, load (or create) the config, assemble the document
set from the filesystem, build a fresh index from exactly those documents
(overwriting any prior index wholesale), persist it, then unconditionally
generate and persist a project summary from the new index. -/
def create_rag (eng : Engine) (st : ServiceState) (rag_name : String) : ServiceState :=
  let fd := (getEntry st.filesDirs rag_name).getD emptyFilesDir
  let st1 := { st with filesDirs := setEntry st.filesDirs rag_name fd }
  let r := load_rag_config st1 rag_name
  let docs := createRagDocs eng r.1 fd
  let st3 := { r.2 with indices := setEntry r.2.indices rag_name docs }
  { st3 with resumes := setEntry st3.resumes rag_name (eng.summarize docs) }

/-! ## Config-update HTTP handler (`update_rag_config`,
`src/api/services/rag_router.py:133-168`) -/

/-- A JSON value supplied for one field of the update body. The two shapes
the four allowed fields accept; a body may also carry keys outside the
allowed set (they are discarded by the handler). -/
inductive FieldVal where
  | str (s : String)
  | filters (f : List (String × FilterRuleOpt))
deriving DecidableEq, Repr

/-- The router's `allowed_keys` set (`src/api/services/rag_router.py:151`). -/
def allowed_keys : List String :=
  ["chat_model", "embedding_model", "file_filters", "system_prompt"]

/-- Modelled from the spec: the pydantic partial merge
`existing_config.model_copy(update=updates)` followed by full-model
validation `RAGConfig.model_validate(...)` — the pydantic `RAGConfig` is not
under `src/` (`src/api/src/rag_config.py` holds the plain-class version).
Per the spec, unspecified fields retain their prior values and a well-typed
merged record always validates. -/
def apply_update (c : RAGConfig) (kv : String × FieldVal) : RAGConfig :=
  match kv with
  | ("chat_model", FieldVal.str s) => { c with chat_model := s }
  | ("embedding_model", FieldVal.str s) => { c with embedding_model := s }
  | ("system_prompt", FieldVal.str s) => { c with system_prompt := s }
  | ("file_filters", FieldVal.filters f) => { c with file_filters := f }
  | _ => c

/-- The handler's outcome: an `HTTPException`, the 200 "No changes provided"
response, or the validated updated config. -/
inductive UpdateResponse where
  | httpError (status : Nat) (detail : String)
  | noChanges
  | updated (c : RAGConfig)
deriving DecidableEq, Repr

/-- `update_rag_config` HTTP handler (`src/api/services/rag_router.py:133-168`):
load the existing config (creating a default one on disk when absent), reject
a literally empty body with 400, drop keys outside `allowed_keys`, answer
"No changes provided" when nothing remains, otherwise merge, validate and
persist via the service, mapping `FileNotFoundError` to 404. -/
def router_update_rag_config (st : ServiceState) (rag_name : String)
    (config_data : List (String × FieldVal)) : UpdateResponse × ServiceState :=
  let r := get_rag_config st rag_name
  let existing_config := r.1
  let st1 := r.2
  if config_data.isEmpty then
    (UpdateResponse.httpError 400 "Invalid configuration: body must be a non-empty JSON object", st1)
  else
    let updates := config_data.filter (fun kv => allowed_keys.contains kv.1)
    if updates.isEmpty then (UpdateResponse.noChanges, st1)
    else
      let validated_config := updates.foldl apply_update existing_config
      match update_rag_config st1 rag_name validated_config with
      | (some _, st2) => (UpdateResponse.httpError 404 "RAG not found.", st2)
      | (none, st2) => (UpdateResponse.updated validated_config, st2)

/-! ## Streaming event multiplexer (`RAGService.async_agent_stream`,
`src/api/src/rag.py:826-945`, and the `stream_rag` endpoint,
`src/api/services/rag_router.py:400-435`)

The raw feed from `handler.stream_events()` is modeled as the list of raw
events delivered before the feed either ends normally or raises
(`streamErr`). Python values reaching the untyped branches are modeled by
`PyVal`; an `AttributeError` raised inside the loop body (e.g. calling
`.startswith` on a non-string tool output) is modeled by `Except.error`. -/

/-- A LlamaIndex `ChatMessage` as the multiplexer reads it: `model_dump()`
always yields a dict containing `role` and `content`. -/
structure ChatMsg where
  role : String
  content : String
deriving DecidableEq, Repr

/-- An untyped Python value as inspected by the tool-result branches. -/
inductive PyVal where
  | str (s : String)
  | list (xs : List PyVal)
  | dict (entries : List (String × PyVal))
  | none_
deriving Repr

/-- `'k' in d` for a Python dict. -/
def dictHasKey (entries : List (String × PyVal)) (k : String) : Bool :=
  entries.any (fun e => e.1 == k)

/-- `d.get(k, default)` for a Python dict. -/
def pyGet (entries : List (String × PyVal)) (k : String) (default : PyVal) : PyVal :=
  match entries.find? (fun e => e.1 == k) with
  | some e => e.2
  | none => default

/-- Raw engine events from one agent run. `agentStream` carries the `delta`
attribute the token branch checks; `toolCall` is the "tool about to run"
notice; `toolCallResult` is a finished tool with its raw output;
`agentOutput` is a produced turn. The constructors are disjoint, matching
the distinct LlamaIndex event classes. -/
inductive RawEvent where
  | agentStream (delta : String)
  | toolCall (tool_name : String) (tool_kwargs : List (String × PyVal))
  | toolCallResult (tool_name : String) (tool_kwargs : List (String × PyVal)) (raw_output : PyVal)
  | agentOutput (response : ChatMsg)
deriving Repr

/-- One finalized chat item as sent to the client (`ChatHistoryItem`,
`src/api/src/types.py:11-19`). -/
structure ChatHistoryItem where
  content : String
  role : String
deriving DecidableEq, Repr

/-- The typed stream events of `src/api/src/types.py` (the discriminated
union `StreamEvent`). The `tool_call` variant is declared in the source
(`ToolCallStreamEvent`, `src/api/src/types.py:97-105`). -/
inductive StreamEvent where
  | token (data : String)
  | tool_call (tool_name : String) (params : List (String × PyVal))
  | sources (data : PyVal)
  | documents (data : List PyVal)
  | read_file (content : String) (file_path : PyVal) (success : Bool) (error : Option String)
  | list_files (files : PyVal) (directory_path : PyVal) (success : Bool) (error : Option String)
  | chat_history (data : ChatHistoryItem)
  | final (chat_history : List ChatHistoryItem) (documents : List PyVal) (sources : List PyVal)
deriving Repr

/-- Recognizer for the `final` variant. -/
def isFinal : StreamEvent → Bool
  | StreamEvent.final _ _ _ => true
  | _ => false

/-- Recognizer for the `tool_call` variant. -/
def isToolCall : StreamEvent → Bool
  | StreamEvent.tool_call _ _ => true
  | _ => false

/-- Recognizer for the `sources` variant. -/
def isSources : StreamEvent → Bool
  | StreamEvent.sources _ => true
  | _ => false

/-- The accumulation state the multiplexer owns for one streamed query. -/
structure Acc where
  sources : List PyVal
  documents : List PyVal
  chat_history : List ChatMsg
deriving Repr

/-- Role restriction (`chat_data['role'] if chat_data['role'] in
['user', 'assistant'] else 'assistant'`). -/
def normalize_role (role : String) : String :=
  if role = "user" ∨ role = "assistant" then role else "assistant"

/-- Is a list item a dict holding both `content` and `source`
(`src/api/src/rag.py:869`)? -/
def validDocumentItem : PyVal → Bool
  | PyVal.dict es => dictHasKey es "content" && dictHasKey es "source"
  | _ => false

/-- The `isinstance(event, ToolCallResult)` branch
(`src/api/src/rag.py:852-912`): dispatch a finished tool by identity —
`search*` tools, tools whose name contains `rag`, `read_file_tool` and
`list_files_tool`; anything else is ignored. `Except.error` models an
`AttributeError` raised inside the branch. -/
def processToolResult (acc : Acc) (tool_name : String)
    (tool_kwargs : List (String × PyVal)) (raw_output : PyVal) :
    Except Unit (List StreamEvent × Acc) :=
  if strStartsWith tool_name "search" then
    match raw_output with
    | PyVal.dict entries =>
      if dictHasKey entries "content" && dictHasKey entries "urls" then
        Except.ok ([StreamEvent.sources (PyVal.dict entries)],
          { acc with sources := acc.sources ++ [PyVal.dict entries] })
      else Except.ok ([], acc)  -- invalid search result: warning, dropped
    | _ => Except.ok ([], acc)  -- not a dict: warning, dropped
  else if strContains tool_name "rag" then
    match raw_output with
    | PyVal.list items =>
      let valid_documents := items.filter validDocumentItem
      let acc' := { acc with documents := acc.documents ++ valid_documents }
      if valid_documents.isEmpty then Except.ok ([], acc')
      else Except.ok ([StreamEvent.documents valid_documents], acc')
    | _ => Except.ok ([], acc)  -- not a list: warning, dropped
  else if tool_name = "read_file_tool" then
    let file_path := pyGet tool_kwargs "rel_path" (PyVal.str "unknown")
    match raw_output with
    | PyVal.str file_content =>
      let success := !(strStartsWith file_content "File not found:") &&
        !(strStartsWith file_content "Error reading file:")
      let error := if success then none else some file_content
      Except.ok ([StreamEvent.read_file (if success then file_content else "")
        file_path success error], acc)
    | _ => Except.error ()  -- `.startswith` on a non-string raises
  else if tool_name = "list_files_tool" then
    let dir_path := pyGet tool_kwargs "rel_dir" (PyVal.str "unknown")
    match raw_output with
    | PyVal.list [PyVal.str s] =>
      let success := !(strStartsWith s "Directory not found:")
      let error := if success then none else some s
      Except.ok ([StreamEvent.list_files
        (if success then PyVal.list [PyVal.str s] else PyVal.list [])
        dir_path success error], acc)
    | PyVal.list [_] => Except.error ()  -- `.startswith` on a non-string raises
    | other => Except.ok ([StreamEvent.list_files other dir_path true none], acc)
  else Except.ok ([], acc)

/-- Classify one raw event into the stream events it yields and the updated
accumulator (`src/api/src/rag.py:843-924`), or `Except.error` when the loop
body raises. The source's three checks (`delta` truthy / `ToolCallResult` /
`AgentOutput`) are independent `if`s over disjoint event classes. -/
def processEvent (acc : Acc) : RawEvent → Except Unit (List StreamEvent × Acc)
  | RawEvent.agentStream delta =>
    if delta ≠ "" then Except.ok ([StreamEvent.token delta], acc)
    else Except.ok ([], acc)
  | RawEvent.toolCall _ _ =>
    -- No branch of the loop handles the "tool about to run" event class:
    -- it has no `delta` and is neither a `ToolCallResult` nor an `AgentOutput`.
    Except.ok ([], acc)
  | RawEvent.toolCallResult tool_name tool_kwargs raw_output =>
    processToolResult acc tool_name tool_kwargs raw_output
  | RawEvent.agentOutput response =>
    let acc' := { acc with chat_history := acc.chat_history ++ [response] }
    Except.ok ([StreamEvent.chat_history
      { content := response.content, role := normalize_role response.role }], acc')

/-- Run the loop over the delivered raw events: the yielded stream events in
order, the final accumulator, and whether the loop body raised (processing
stops at the first raise). -/
def processEvents (acc : Acc) : List RawEvent → List StreamEvent × Acc × Bool
  | [] => ([], acc, false)
  | e :: rest =>
    match processEvent acc e with
    | Except.error _ => ([], acc, true)
    | Except.ok (evs, acc') =>
      let r := processEvents acc' rest
      (evs ++ r.1, r.2.1, r.2.2)

/-- Build the trailing `final` event from the accumulator
(`src/api/src/rag.py:926-945`): role-normalized full chat history, all
collected documents, all collected sources. -/
def final_of (acc : Acc) : StreamEvent :=
  StreamEvent.final
    (acc.chat_history.map (fun m => { content := m.content, role := normalize_role m.role }))
    acc.documents acc.sources

/-- The initial accumulator for one run (history is copied in). -/
def initAcc (history : List ChatMsg) : Acc :=
  { sources := [], documents := [], chat_history := history }

/-- `async_agent_stream(rag_name, query, history)`: the ordered stream events
the generator yields, and whether it terminated by raising. The `final`
event is appended after the `async for` loop, so it is reached only when
neither the raw feed (`streamErr`) nor the loop body raised; an exception
propagates out of the generator with no `final` event. -/
def async_agent_stream (history : List ChatMsg) (raws : List RawEvent) (streamErr : Bool) :
    List StreamEvent × Bool :=
  let r := processEvents (initAcc history) raws
  if r.2.2 then (r.1, true)
  else if streamErr then (r.1, true)
  else (r.1 ++ [final_of r.2.1], false)

/-- One serialized line of the HTTP stream: a JSON-encoded stream event, or
the `{'type': 'error', ...}` object the endpoint emits on failure. -/
inductive Line where
  | ev (e : StreamEvent)
  | errorEvent
deriving Repr

/-- The `stream_rag` endpoint's generator (`src/api/services/rag_router.py:413-433`):
forward each event as a serialized line; if the agent stream raises, log and
send a single trailing error event instead of a `final` event. -/
def stream_rag (history : List ChatMsg) (raws : List RawEvent) (streamErr : Bool) : List Line :=
  let r := async_agent_stream history raws streamErr
  r.1.map Line.ev ++ (if r.2 then [Line.errorEvent] else [])

/-! ## Theorems -/

/-- C3: for every list of candidate paths and every include/exclude glob
sets, `filter_files_by_globs` never admits a path matching an exclude
pattern, admits a non-excluded path iff it matches at least one include
pattern, admits nothing when the include set is empty, and preserves the
input order (the output is a subsequence of the input). -/
theorem c3_filter_files_by_globs_spec (files inc exc : List String) :
    (∀ f ∈ filter_files_by_globs files inc exc, ∀ e ∈ exc, fnmatch f e = false)
    ∧ (∀ f ∈ files, (∀ e ∈ exc, fnmatch f e = false) →
        (f ∈ filter_files_by_globs files inc exc ↔ ∃ p ∈ inc, fnmatch f p = true))
    ∧ (inc = [] → filter_files_by_globs files inc exc = [])
    ∧ (filter_files_by_globs files inc exc).Sublist files := by
  refine ⟨?_, ?_, ?_, List.filter_sublist _⟩
  · intro f hf e he
    rw [filter_files_by_globs, List.mem_filter] at hf
    have h := hf.2
    simp only [Bool.and_eq_true, Bool.not_eq_true', List.any_eq_false, Bool.not_eq_true] at h
    exact h.1 e he
  · intro f hfin hnex
    rw [filter_files_by_globs, List.mem_filter]
    simp only [Bool.and_eq_true, Bool.not_eq_true', List.any_eq_false, List.any_eq_true, Bool.not_eq_true]
    constructor
    · intro h
      exact h.2.2
    · intro h
      exact ⟨hfin, hnex, h⟩
  · intro h
    subst h
    simp [filter_files_by_globs]

/-- Witness for C3 at a concrete input: `notes.txt` is admitted by include
`*.txt` with exclude `*.md`. -/
theorem c3_filter_files_by_globs_spec_witness :
    "notes.txt" ∈ filter_files_by_globs ["notes.txt", "draft.md"] ["*.txt"] ["*.md"] :=
  ((c3_filter_files_by_globs_spec ["notes.txt", "draft.md"] ["*.txt"] ["*.md"]).2.1
      "notes.txt" (by simp) (by decide)).mpr ⟨"*.txt", by simp, by decide⟩

/-- C6 counterexample: the pattern `a.txt` targets the bare file name of the
candidate path `dir/a.txt` (it matches `Path("dir/a.txt").name`), yet
`filter_files_by_globs` does not admit the path — the file-name filter
matches the pattern only against the candidate string as passed, never
against the bare name, so the claim fails for the file-name filter. -/
theorem c6_counterexample :
    fnmatch (baseName "dir/a.txt") "a.txt" = true ∧
    filter_files_by_globs ["dir/a.txt"] ["a.txt"] [] = [] := by
  exact ⟨by decide, by decide⟩

/-- C6 (amended): the document filter matches each include pattern against
both the bare file name and the stored file path, so a pattern targeting
either form admits the document; the file-name filter
(`filter_files_by_globs`) instead matches patterns only against the
candidate string exactly as passed. -/
theorem c6_matching_forms (docs : List Document) (pats files inc exc : List String) :
    (∀ d ∈ docs,
      (d ∈ filter_documents_by_include_globs docs pats ↔
        (metaGet d "file_path" ≠ "" ∧
          ∃ p ∈ pats, fnmatch (baseName (metaGet d "file_path")) p = true ∨
            fnmatch (metaGet d "file_path") p = true)))
    ∧ (∀ f ∈ files,
      (f ∈ filter_files_by_globs files inc exc ↔
        ((∀ e ∈ exc, fnmatch f e = false) ∧ ∃ p ∈ inc, fnmatch f p = true))) := by
  constructor
  · intro d hd
    rw [filter_documents_by_include_globs, List.mem_filter]
    simp only [Bool.and_eq_true, List.any_eq_true, Bool.or_eq_true, bne_iff_ne, ne_eq]
    constructor
    · intro h
      exact h.2
    · intro h
      exact ⟨hd, h⟩
  · intro f hf
    rw [filter_files_by_globs, List.mem_filter]
    simp only [Bool.and_eq_true, Bool.not_eq_true', List.any_eq_false, List.any_eq_true, Bool.not_eq_true]
    constructor
    · intro h
      exact h.2
    · intro h
      exact ⟨hf, h⟩

/-- Witness for C6 (amended) at a concrete input: a document whose bare file
name matches the pattern is admitted by the document filter even though the
pattern does not match its full path. -/
theorem c6_matching_forms_witness :
    ({ text := "t", metadata := [("file_path", "dir/a.txt")] } : Document) ∈
      filter_documents_by_include_globs
        [{ text := "t", metadata := [("file_path", "dir/a.txt")] }] ["a.txt"] :=
  ((c6_matching_forms [{ text := "t", metadata := [("file_path", "dir/a.txt")] }]
      ["a.txt"] [] [] []).1 _ (by simp)).mpr
    ⟨by decide, "a.txt", by simp, Or.inl (by decide)⟩

/-! ### Association-list lemmas -/

/-- Looking up a key just written returns the written value. -/
theorem getEntry_setEntry {α : Type} (m : List (String × α)) (k : String) (v : α) :
    getEntry (setEntry m k v) k = some v := by
  simp [getEntry, setEntry, List.find?_cons_of_pos]

/-- Looking up an erased key returns `none`. -/
theorem getEntry_eraseEntry {α : Type} (m : List (String × α)) (k : String) :
    getEntry (eraseEntry m k) k = none := by
  rw [getEntry, eraseEntry, List.find?_eq_none.mpr]
  · rfl
  · intro x hx
    simp only [List.mem_filter, bne_iff_ne, ne_eq] at hx
    simp [hx.2]

/-! ### C8: config update requires an existing instance -/

/-- C8: `RAGService.update_rag_config` fails with `NotFound` for every
instance whose index directory does not exist, and the update step persists
nothing (the state is returned unchanged). -/
theorem c8_update_requires_instance (st : ServiceState) (rag_name : String) (config : RAGConfig)
    (h : getEntry st.indices rag_name = none) :
    update_rag_config st rag_name config = (some Err.notFound, st) := by
  simp [update_rag_config, h]

/-- Witness for C8 at a concrete input: updating a never-created instance on
the empty filesystem fails with `NotFound` and changes nothing. -/
theorem c8_update_requires_instance_witness :
    update_rag_config ⟨[], [], [], []⟩ "missing" defaultRAGConfig =
      (some Err.notFound, ⟨[], [], [], []⟩) :=
  c8_update_requires_instance ⟨[], [], [], []⟩ "missing" defaultRAGConfig rfl

/-! ### C9: delete semantics -/

/-- A one-instance filesystem with an empty files root, used to exercise the
clean-deletion branch. -/
def st9 : ServiceState :=
  { filesDirs := [("r", emptyFilesDir)]
    indices := [("r", [])]
    configs := [("r", StoredConfig.valid defaultRAGConfig)]
    resumes := [("r", "summary")] }

/-- An instance whose files root holds a directory symlink (as created by
`create_symlink` on a directory target). -/
def st9cex : ServiceState :=
  { filesDirs := [("r",
      { files := []
        folders := []
        symlinks := [{ name := "link1", target := [], target_is_dir := true }]
        baseDocs := [] })]
    indices := [("r", [])]
    configs := [("r", StoredConfig.valid defaultRAGConfig)]
    resumes := [("r", "summary")] }

/-- C9 counterexample: the instance's index directory exists, but its files
root holds a directory symlink; `delete_rag` removes the index directory,
then `files_path.rmdir()` raises `OSError`, so the config record and the
summary file are **not** removed — contradicting the claim that all four
locations are removed whenever the index directory exists. -/
theorem c9_counterexample :
    (delete_rag st9cex "r").1 = some Err.osError ∧
    getEntry (delete_rag st9cex "r").2.indices "r" = none ∧
    getEntry (delete_rag st9cex "r").2.configs "r" =
      some (StoredConfig.valid defaultRAGConfig) ∧
    getEntry (delete_rag st9cex "r").2.resumes "r" = some "summary" := by
  exact ⟨rfl, rfl, rfl, rfl⟩

/-- C9 (amended): `delete_rag` on an instance whose index directory does not
exist fails with `NotFound` and leaves all four storage locations untouched.
When the index directory exists, it is removed first; all four locations are
removed only when the files root is absent, or contains no subfolder and no
directory symlink. If the files root does hold a subfolder or a directory
symlink, `files_path.rmdir()` raises `OSError` mid-operation: the index
directory is already gone but the config record and the summary file are
left untouched (a partial removal). -/
theorem c9_delete_rag_semantics (st : ServiceState) (rag_name : String) :
    (getEntry st.indices rag_name = none → delete_rag st rag_name = (some Err.notFound, st))
    ∧ (getEntry st.indices rag_name ≠ none →
        getEntry st.filesDirs rag_name = none →
        (delete_rag st rag_name).1 = none ∧
        getEntry (delete_rag st rag_name).2.filesDirs rag_name = none ∧
        getEntry (delete_rag st rag_name).2.indices rag_name = none ∧
        getEntry (delete_rag st rag_name).2.configs rag_name = none ∧
        getEntry (delete_rag st rag_name).2.resumes rag_name = none)
    ∧ (∀ fd : FilesDir, getEntry st.indices rag_name ≠ none →
        getEntry st.filesDirs rag_name = some fd →
        fd.folders = [] → fd.symlinks.any (fun l => l.target_is_dir) = false →
        (delete_rag st rag_name).1 = none ∧
        getEntry (delete_rag st rag_name).2.filesDirs rag_name = none ∧
        getEntry (delete_rag st rag_name).2.indices rag_name = none ∧
        getEntry (delete_rag st rag_name).2.configs rag_name = none ∧
        getEntry (delete_rag st rag_name).2.resumes rag_name = none)
    ∧ (∀ fd : FilesDir, getEntry st.indices rag_name ≠ none →
        getEntry st.filesDirs rag_name = some fd →
        (fd.folders ≠ [] ∨ fd.symlinks.any (fun l => l.target_is_dir) = true) →
        (delete_rag st rag_name).1 = some Err.osError ∧
        getEntry (delete_rag st rag_name).2.indices rag_name = none ∧
        (delete_rag st rag_name).2.configs = st.configs ∧
        (delete_rag st rag_name).2.resumes = st.resumes) := by
  have hIsNone : getEntry st.indices rag_name ≠ none →
      (getEntry st.indices rag_name).isNone = false := by
    intro h
    cases hx : getEntry st.indices rag_name with
    | none => exact absurd hx h
    | some v => rfl
  refine ⟨?_, ?_, ?_, ?_⟩
  · intro h
    simp [delete_rag, h]
  · intro h hfd
    simp [delete_rag, hIsNone h, hfd, getEntry_eraseEntry]
  · intro fd h hfd hfolders hsyml
    have hrm : (!fd.folders.isEmpty || fd.symlinks.any (fun l => l.target_is_dir)) = false := by
      simp [hfolders, hsyml]
    simp [delete_rag, hIsNone h, hfd, hrm, getEntry_eraseEntry]
  · intro fd h hfd hdirty
    have hrm : (!fd.folders.isEmpty || fd.symlinks.any (fun l => l.target_is_dir)) = true := by
      rcases hdirty with hf | hs
      · cases hfold : fd.folders with
        | nil => exact absurd hfold hf
        | cons a t => simp [hfold]
      · simp [hs]
    simp [delete_rag, hIsNone h, hfd, hrm, getEntry_eraseEntry]

/-- Witness for C9 (amended) at concrete inputs: `NotFound` on the empty
filesystem, a clean full deletion on `st9`, and the `OSError` partial
removal on `st9cex`. -/
theorem c9_delete_rag_semantics_witness :
    delete_rag ⟨[], [], [], []⟩ "missing" = (some Err.notFound, ⟨[], [], [], []⟩) ∧
    getEntry (delete_rag st9 "r").2.configs "r" = none ∧
    (delete_rag st9cex "r").2.configs = st9cex.configs :=
  ⟨(c9_delete_rag_semantics ⟨[], [], [], []⟩ "missing").1 rfl,
   ((c9_delete_rag_semantics st9 "r").2.2.1 emptyFilesDir
      (fun hx => Option.noConfusion hx) rfl rfl rfl).2.2.2.1,
   ((c9_delete_rag_semantics st9cex "r").2.2.2
      { files := [], folders := [],
        symlinks := [{ name := "link1", target := [], target_is_dir := true }],
        baseDocs := [] }
      (fun hx => Option.noConfusion hx) rfl (Or.inr rfl)).2.2.1⟩

/-! ### C2: reindex and previously-indexed web documents -/

/-- A web-fetched document as produced by `fetch_url_content`
(`src/api/src/utils.py:188-198`): metadata carries `source_type = web_page`. -/
def webDoc : Document :=
  { text := "web content"
    metadata := [("file_path", "https://example.com/page"),
                 ("url", "https://example.com/page"),
                 ("source_type", "web_page")] }

/-- A trivial instantiation of the external collaborators, used to evaluate
`create_rag` on concrete states. -/
def engTrivial : Engine :=
  { readDir := fun docs _ => docs
    jsonRead := fun _ => []
    summarize := fun _ => "summary" }

/-- A state whose instance `r` has an empty files root but a persisted index
holding one web document. -/
def st2cex : ServiceState :=
  { filesDirs := [("r", emptyFilesDir)]
    indices := [("r", [webDoc])]
    configs := [("r", StoredConfig.valid defaultRAGConfig)]
    resumes := [] }

/-- C2 counterexample: the prior index of `r` holds a document whose metadata
marks it `source_type = web_page`, yet after `create_rag` the new index is
empty — the web document was not carried forward, so a reindex drops
previously-added web documents, contrary to the claim. -/
theorem c2_counterexample :
    metaGet webDoc "source_type" = "web_page" ∧
    getEntry st2cex.indices "r" = some [webDoc] ∧
    getEntry (create_rag engTrivial st2cex "r").indices "r" = some [] := by
  exact ⟨rfl, rfl, rfl⟩

/-- The first component of `_load_rag_config` depends only on the stored
configs. -/
theorem load_rag_config_fst_congr (st st' : ServiceState) (n : String)
    (h : st.configs = st'.configs) :
    (load_rag_config st n).1 = (load_rag_config st' n).1 := by
  unfold load_rag_config
  rw [h]
  cases hx : getEntry st'.configs n with
  | none => rfl
  | some sc => cases sc <;> rfl

/-- The index `create_rag` persists holds exactly the documents assembled
from the files root and the loaded config. -/
theorem create_rag_indices_eq (eng : Engine) (st : ServiceState) (n : String) :
    getEntry (create_rag eng st n).indices n =
      some (createRagDocs eng (load_rag_config st n).1
        ((getEntry st.filesDirs n).getD emptyFilesDir)) := by
  show getEntry (setEntry _ n _) n = _
  rw [getEntry_setEntry]
  exact congrArg (fun c => some (createRagDocs eng c _))
    (load_rag_config_fst_congr _ st n rfl)

/-- C2 (amended): `create_rag` rebuilds the index solely from the
filesystem (symlink targets and base files) and the loaded config; it never
consults the existing persisted index, so documents present only there —
including `source_type = web_page` ones — are dropped by a reindex. -/
theorem c2_create_rag_index_from_filesystem (eng : Engine) (st : ServiceState) (rag_name : String) :
    getEntry (create_rag eng st rag_name).indices rag_name =
      some (createRagDocs eng (load_rag_config st rag_name).1
        ((getEntry st.filesDirs rag_name).getD emptyFilesDir)) ∧
    (∀ idx : List (String × List Document), ∀ res : List (String × String),
      getEntry (create_rag eng { st with indices := idx, resumes := res } rag_name).indices rag_name =
        getEntry (create_rag eng st rag_name).indices rag_name) := by
  refine ⟨create_rag_indices_eq eng st rag_name, ?_⟩
  intro idx res
  rw [create_rag_indices_eq, create_rag_indices_eq]
  rw [load_rag_config_fst_congr { st with indices := idx, resumes := res } st rag_name rfl]

/-! ### C4: create on an empty instance -/

/-- External collaborators for the C4 evaluation; the summarizer returns a
recognizable string so its output can be traced into the state. -/
def engC4 : Engine :=
  { readDir := fun docs _ => docs
    jsonRead := fun _ => []
    summarize := fun _ => "GENERATED SUMMARY" }

/-- The empty filesystem: no files, no symlinks, no indices, no configs, no
summaries. -/
def st4cex : ServiceState := ⟨[], [], [], []⟩

/-- C4 counterexample: on an instance with zero files, zero symlinks and zero
prior documents, `create_rag` does build and persist an empty index, but it
does **not** skip summary generation — the summary query runs
unconditionally and its result is persisted under `data/resumes/`. -/
theorem c4_counterexample :
    getEntry st4cex.resumes "r" = none ∧
    getEntry (create_rag engC4 st4cex "r").indices "r" = some [] ∧
    getEntry (create_rag engC4 st4cex "r").resumes "r" = some "GENERATED SUMMARY" := by
  exact ⟨rfl, rfl, rfl⟩

/-- C4 (amended): `create_rag` on an instance with zero files, zero symlinks
and zero prior documents builds and persists an (empty) index without error,
and then still generates and persists a summary (summary generation is
unconditional, applied to the empty document set). -/
theorem c4_create_rag_empty_instance (eng : Engine) (st : ServiceState) (rag_name : String)
    (hfd : (getEntry st.filesDirs rag_name).getD emptyFilesDir = emptyFilesDir)
    (_hidx : getEntry st.indices rag_name = none) :
    getEntry (create_rag eng st rag_name).indices rag_name = some [] ∧
    getEntry (create_rag eng st rag_name).resumes rag_name = some (eng.summarize []) := by
  have hdocs : ∀ cfg : RAGConfig, createRagDocs eng cfg emptyFilesDir = [] := fun cfg => rfl
  constructor
  · show getEntry (setEntry _ rag_name _) rag_name = _
    rw [getEntry_setEntry, hfd, hdocs]
  · show getEntry (setEntry _ rag_name _) rag_name = _
    rw [getEntry_setEntry, hfd, hdocs]

/-- Witness for C4 (amended) at a concrete input: the empty filesystem. -/
theorem c4_create_rag_empty_instance_witness :
    getEntry (create_rag engC4 st4cex "empty").indices "empty" = some [] ∧
    getEntry (create_rag engC4 st4cex "empty").resumes "empty" =
      some (engC4.summarize []) :=
  c4_create_rag_empty_instance engC4 st4cex "empty" rfl rfl

/-! ### C7: empty config update -/

/-- A one-instance filesystem with a stored valid config, for the C7
evaluation. -/
def st7 : ServiceState :=
  { filesDirs := [("r", emptyFilesDir)]
    indices := [("r", [])]
    configs := [("r", StoredConfig.valid defaultRAGConfig)]
    resumes := [] }

/-- C7 counterexample: a config update whose field set is empty (an empty
JSON body) does not return the "no changes" signal — the handler fails with
HTTP 400 (`rag_router.py:147-148`). Nothing is persisted (the state is
unchanged), but the claim's "rather than failing" part is violated. -/
theorem c7_counterexample :
    (router_update_rag_config st7 "r" []).1 ≠ UpdateResponse.noChanges ∧
    (router_update_rag_config st7 "r" []).1 =
      UpdateResponse.httpError 400 "Invalid configuration: body must be a non-empty JSON object" ∧
    (router_update_rag_config st7 "r" []).2 = st7 := by
  exact ⟨by decide, by decide, by decide⟩

/-- C7 (amended): a literally empty update body fails with HTTP 400 and
persists nothing; a non-empty body none of whose keys is a recognized config
field leaves the stored config byte-for-byte unchanged and returns the
distinct "No changes provided" no-op signal without persisting anything. -/
theorem c7_router_update_empty_and_noop (st : ServiceState) (rag_name : String)
    (data : List (String × FieldVal)) (c : RAGConfig)
    (hcfg : getEntry st.configs rag_name = some (StoredConfig.valid c)) :
    (router_update_rag_config st rag_name []).1 =
      UpdateResponse.httpError 400 "Invalid configuration: body must be a non-empty JSON object" ∧
    (router_update_rag_config st rag_name []).2 = st ∧
    (data ≠ [] → data.filter (fun kv => allowed_keys.contains kv.1) = [] →
      router_update_rag_config st rag_name data = (UpdateResponse.noChanges, st)) := by
  have hload : load_rag_config st rag_name = (c, st) := by
    unfold load_rag_config
    rw [hcfg]
  refine ⟨?_, ?_, ?_⟩
  · simp [router_update_rag_config, get_rag_config, hload]
  · simp [router_update_rag_config, get_rag_config, hload]
  · intro hne hfilter
    cases data with
    | nil => exact absurd rfl hne
    | cons d ds =>
      simp only [router_update_rag_config, get_rag_config, hload, List.isEmpty_cons,
        Bool.false_eq_true, if_false, hfilter, List.isEmpty_nil, if_true]

/-- Witness for C7 (amended) at a concrete input: a body whose single key is
not a recognized config field yields the no-op response and leaves the state
unchanged. -/
theorem c7_router_update_empty_and_noop_witness :
    (router_update_rag_config st7 "r" []).2 = st7 ∧
    router_update_rag_config st7 "r" [("unknown_key", FieldVal.str "x")] =
      (UpdateResponse.noChanges, st7) :=
  ⟨(c7_router_update_empty_and_noop st7 "r" [] defaultRAGConfig rfl).2.1,
   (c7_router_update_empty_and_noop st7 "r" [("unknown_key", FieldVal.str "x")]
      defaultRAGConfig rfl).2.2 (by simp) (by decide)⟩

/-! ### C10: default-config creation as a side effect of loading -/

/-- Every stream event the finished-tool dispatch yields is neither a
`final` nor a `tool_call` event. -/
theorem processToolResult_yields (acc : Acc) (tool_name : String)
    (tool_kwargs : List (String × PyVal)) (raw_output : PyVal)
    (p : List StreamEvent × Acc)
    (h : processToolResult acc tool_name tool_kwargs raw_output = Except.ok p) :
    ∀ x ∈ p.1, isFinal x = false ∧ isToolCall x = false := by
  intro x hx
  rw [processToolResult.eq_def] at h
  by_cases h1 : strStartsWith tool_name "search" = true
  · rw [if_pos h1] at h
    cases raw_output with
    | dict entries =>
      dsimp only at h
      by_cases h2 : (dictHasKey entries "content" && dictHasKey entries "urls") = true
      · rw [if_pos h2] at h
        cases h
        simp_all [isFinal, isToolCall]
      · rw [if_neg h2] at h
        cases h
        simp_all
    | str s => dsimp only at h; cases h; simp_all
    | list xs => dsimp only at h; cases h; simp_all
    | none_ => dsimp only at h; cases h; simp_all
  · rw [if_neg h1] at h
    by_cases h2 : strContains tool_name "rag" = true
    · rw [if_pos h2] at h
      cases raw_output with
      | list items =>
        dsimp only at h
        by_cases h3 : (items.filter validDocumentItem).isEmpty = true
        · rw [if_pos h3] at h
          cases h
          simp_all
        · rw [if_neg h3] at h
          cases h
          simp_all [isFinal, isToolCall]
      | str s => dsimp only at h; cases h; simp_all
      | dict es => dsimp only at h; cases h; simp_all
      | none_ => dsimp only at h; cases h; simp_all
    · rw [if_neg h2] at h
      by_cases h3 : tool_name = "read_file_tool"
      · rw [if_pos h3] at h
        cases raw_output with
        | str file_content =>
          dsimp only at h
          cases h
          simp_all [isFinal, isToolCall]
        | list xs => dsimp only at h; cases h
        | dict es => dsimp only at h; cases h
        | none_ => dsimp only at h; cases h
      · rw [if_neg h3] at h
        by_cases h4 : tool_name = "list_files_tool"
        · rw [if_pos h4] at h
          cases raw_output with
          | list xs =>
            cases xs with
            | nil => dsimp only at h; cases h; simp_all [isFinal, isToolCall]
            | cons y1 ys =>
              cases ys with
              | nil =>
                cases y1 with
                | str s => dsimp only at h; cases h; simp_all [isFinal, isToolCall]
                | list l => dsimp only at h; cases h
                | dict es => dsimp only at h; cases h
                | none_ => dsimp only at h; cases h
              | cons y2 ys2 =>
                cases y1 <;> (dsimp only at h; cases h; simp_all [isFinal, isToolCall])
          | str s => dsimp only at h; cases h; simp_all [isFinal, isToolCall]
          | dict es => dsimp only at h; cases h; simp_all [isFinal, isToolCall]
          | none_ => dsimp only at h; cases h; simp_all [isFinal, isToolCall]
        · rw [if_neg h4] at h
          cases h
          simp_all

/-- Every stream event the loop body yields for a single raw event is
neither a `final` nor a `tool_call` event. -/
theorem processEvent_yields (acc : Acc) (e : RawEvent) (p : List StreamEvent × Acc)
    (h : processEvent acc e = Except.ok p) :
    ∀ x ∈ p.1, isFinal x = false ∧ isToolCall x = false := by
  intro x hx
  cases e with
  | agentStream delta =>
    rw [processEvent] at h
    by_cases hd : delta ≠ ""
    · rw [if_pos hd] at h
      cases h
      simp_all [isFinal, isToolCall]
    · rw [if_neg hd] at h
      cases h
      simp_all
  | toolCall a b =>
    rw [processEvent] at h
    cases h
    simp_all
  | toolCallResult tool_name tool_kwargs raw_output =>
    rw [processEvent] at h
    exact processToolResult_yields acc tool_name tool_kwargs raw_output p h x hx
  | agentOutput response =>
    rw [processEvent] at h
    cases h
    simp_all [isFinal, isToolCall]

/-- No `final` and no `tool_call` event is ever yielded inside the event
loop, over any raw event sequence. -/
theorem processEvents_yields (acc : Acc) (raws : List RawEvent) :
    ∀ x ∈ (processEvents acc raws).1, isFinal x = false ∧ isToolCall x = false := by
  induction raws generalizing acc with
  | nil =>
    intro x hx
    simp [processEvents] at hx
  | cons e rest ih =>
    intro x hx
    rw [processEvents] at hx
    cases hpe : processEvent acc e with
    | error u =>
      rw [hpe] at hx
      simp at hx
    | ok p =>
      rw [hpe] at hx
      obtain ⟨evs, acc'⟩ := p
      simp only [List.mem_append] at hx
      rcases hx with hx | hx
      · exact processEvent_yields acc e (evs, acc') hpe x hx
      · exact ih acc' x hx

/-- C1 counterexample: when the raw engine stream raises before delivering
any event, `async_agent_stream` terminates by propagating the exception and
emits no event at all — in particular no `final` event, contradicting the
claim that exactly one `final` event is emitted even when the raw stream
terminates abnormally. -/
theorem c1_counterexample :
    (async_agent_stream [] [] true).2 = true ∧
    (async_agent_stream [] [] true).1 = [] ∧
    (async_agent_stream [] [] true).1.countP isFinal = 0 := by
  exact ⟨rfl, rfl, rfl⟩

/-- C1 (amended): when the run terminates normally, exactly one `final`
event is emitted, it is the last event, and it aggregates the accumulated
role-normalized chat history, documents and sources; when the raw engine
stream (or the loop body) raises mid-run, no `final` event is emitted — the
exception propagates and the HTTP endpoint instead appends a single
trailing `error` event. -/
theorem c1_final_event_semantics (history : List ChatMsg) (raws : List RawEvent)
    (streamErr : Bool) :
    ((async_agent_stream history raws streamErr).2 = false →
      (async_agent_stream history raws streamErr).1.countP isFinal = 1 ∧
      (async_agent_stream history raws streamErr).1.getLast? =
        some (final_of (processEvents (initAcc history) raws).2.1)) ∧
    ((async_agent_stream history raws streamErr).2 = true →
      (async_agent_stream history raws streamErr).1.countP isFinal = 0 ∧
      (stream_rag history raws streamErr).getLast? = some Line.errorEvent) := by
  have hzero : (processEvents (initAcc history) raws).1.countP isFinal = 0 := by
    rw [List.countP_eq_zero]
    intro x hx
    simp [(processEvents_yields (initAcc history) raws x hx).1]
  rw [async_agent_stream]
  cases hre : (processEvents (initAcc history) raws).2.2 with
  | true =>
    simp only [if_true]
    refine ⟨fun h => absurd h (by simp), fun _ => ⟨hzero, ?_⟩⟩
    rw [stream_rag, async_agent_stream, hre]
    simp
  | false =>
    simp only [Bool.false_eq_true, if_false]
    cases streamErr with
    | true =>
      simp only [if_true]
      refine ⟨fun h => absurd h (by simp), fun _ => ⟨hzero, ?_⟩⟩
      rw [stream_rag, async_agent_stream, hre]
      simp
    | false =>
      simp only [Bool.false_eq_true, if_false]
      refine ⟨fun _ => ⟨?_, ?_⟩, fun h => absurd h (by simp)⟩
      · rw [List.countP_append, hzero]
        rfl
      · rw [List.getLast?_concat]

/-- Witness for C1 (amended) at concrete inputs: a normal one-token run
emits exactly one `final` event; an aborted run makes the endpoint end with
the `error` event. -/
theorem c1_final_event_semantics_witness :
    (async_agent_stream [] [RawEvent.agentStream "hi"] false).1.countP isFinal = 1 ∧
    (stream_rag [] [] true).getLast? = some Line.errorEvent :=
  ⟨((c1_final_event_semantics [] [RawEvent.agentStream "hi"] false).1 rfl).1,
   ((c1_final_event_semantics [] [] true).2 rfl).2⟩

/-- A raw run containing a "tool about to run" notice followed by the
corresponding finished-tool event with a well-formed search payload. -/
def rawsC5 : List RawEvent :=
  [RawEvent.toolCall "search" [("query", PyVal.str "q")],
   RawEvent.toolCallResult "search" [("query", PyVal.str "q")]
     (PyVal.dict [("content", PyVal.str "found"), ("urls", PyVal.list [])])]

/-- C5 counterexample: a raw "tool about to run" event produces no
`tool_call` stream event at all — the result (`sources`) event for the
invocation is emitted, but no `tool_call` event precedes it, contradicting
the claim. -/
theorem c5_counterexample :
    (async_agent_stream [] rawsC5 false).1.countP isToolCall = 0 ∧
    (async_agent_stream [] rawsC5 false).1.countP isSources = 1 := by
  exact ⟨rfl, rfl⟩

/-- C5 (amended): `async_agent_stream` never emits a `tool_call` event:
raw "tool about to run" engine events are ignored by the loop (only `delta`
tokens, `ToolCallResult` and `AgentOutput` events are handled), and the
declared `ToolCallStreamEvent` type is never constructed. -/
theorem c5_no_tool_call_events (history : List ChatMsg) (raws : List RawEvent)
    (streamErr : Bool) :
    (async_agent_stream history raws streamErr).1.countP isToolCall = 0 := by
  have hzero : (processEvents (initAcc history) raws).1.countP isToolCall = 0 := by
    rw [List.countP_eq_zero]
    intro x hx
    simp [(processEvents_yields (initAcc history) raws x hx).2]
  rw [async_agent_stream]
  cases hre : (processEvents (initAcc history) raws).2.2 with
  | true => simpa using hzero
  | false =>
    cases streamErr with
    | true => simpa using hzero
    | false =>
      simp only [Bool.false_eq_true, if_false]
      rw [List.countP_append, hzero]
      rfl

end RAG
